import Mathlib

/-!
Verification of the Palo Alto single-family residential planning/validation
engines (two JavaScript classes, `PlanningEngine` and `ValidationEngine`,
plus the thin form-data layer).

Embedding conventions:
* JavaScript numbers are modelled as exact rationals (`ℚ`); the decimal
  factors of the source (`0.45`, `0.30`, `0.35`, `0.05`, `0.40`, `0.5`)
  are written as the corresponding fractions.
* Fields whose absence (`undefined`) is semantically relevant to the rule
  logic are modelled as `Option` types.  A JavaScript comparison against
  `undefined` is false (NaN semantics), which the `Option` matches encode.
* Presentation-only data (message strings, remediation texts, timestamps)
  is omitted; check names, rule identifiers, violation severities,
  categories, phase statuses and orderings are kept.
* The two engines duplicate the zone table and the FAR formula in the
  source; the duplication is kept here (two separate definitions) so that
  their agreement is a theorem, not a definition.
-/

/-- One record of the static zone-requirement table (square feet). -/
structure ZoneReq where
  minLotSize : ℚ
  maxLotSize : ℚ
  subStandardTypical : ℚ
  subStandardFlag : ℚ
  secondUnitMinTypical : ℚ
  secondUnitMinFlag : ℚ
  deriving DecidableEq

/-- Site attributes, as consumed by both engines. -/
structure SiteData where
  address : String
  zone : String
  lotSize : ℚ
  lotType : String
  isCornerLot : Bool
  creekAreas : ℚ
  easements : ℚ
  historicCategory : Option String
  hasSecondUnit : Bool
  deriving DecidableEq

/-- One proposed accessory structure (validation phase 4). -/
structure AccessoryStructure where
  height : ℚ
  setback : ℚ
  deriving DecidableEq

/-- Proposed-design attributes, as consumed by the validation engine. -/
structure DesignData where
  submittedZone : String
  buildingHeight : ℚ
  totalFloorArea : ℚ
  floors : ℕ
  secondFloorCeiling : ℚ
  thirdFloorCeiling : ℚ
  totalCoverage : ℚ
  frontSetback : ℚ
  interiorSideSetback : ℚ
  streetSideSetback : Option ℚ
  rearSetback : ℚ
  parkingSpaces : ℕ
  coveredParkingSpaces : ℕ
  drivewaySurfaceWidth : ℚ
  drivewayClearanceWidth : ℚ
  backingDistance : ℚ
  hasSecondUnit : Bool
  hasPool : Bool
  hasGarage : Bool
  daylightPlaneCompliant : Option Bool
  drivewayMaterial : String
  porchArea : Option ℚ
  entryProjection : Option ℚ
  bayWindowProjection : Option ℚ
  garageFrontSetback : ℚ
  garageStreetSideSetback : ℚ
  poolSetback : ℚ
  poolSafetyBarriers : Bool
  accessoryStructures : List AccessoryStructure
  secondUnitArea : ℚ
  mainHouseArea : ℚ
  totalCoverageWithFeatures : Option ℚ
  historicCompliance : Option String
  buildingFootprint : Bool
  encroachesCreek : Bool
  encroachesEasement : Bool
  professionalStamps : List String
  submittedDocuments : List String
  deriving DecidableEq

/-- Result of a single validation check (`PASS`/`FAIL`/`WARNING`/`INFO`/`N-A`). -/
inductive CheckRes
  | PASS
  | FAIL
  | WARNING
  | INFO
  | NA
  deriving DecidableEq

/-- A validation check record (name, optional rule id, outcome). -/
structure Check where
  checkName : String
  ruleId : Option String := none
  result : CheckRes
  deriving DecidableEq

/-- The four violation severity tiers of `criticalViolationTypes`. -/
inductive VType
  | absolute_stopper
  | major_stopper
  | design_stopper
  | process_stopper
  deriving DecidableEq

/-- A recorded rule violation (severity, optional rule id, category). -/
structure Violation where
  vtype : VType
  ruleId : Option String := none
  category : String
  deriving DecidableEq

/-- A recorded (non-blocking) warning. -/
structure VWarning where
  wtype : String
  deriving DecidableEq

/-- Result record of one validation phase.  `isSubStandardOut` carries the
`nextPhaseInputs.isSubStandard` value; `finalReportStatus` is set by phase 5
only and holds the report's `overallStatus` string. -/
structure VPhase where
  phase : ℕ
  status : String
  violations : List Violation
  warnings : List VWarning := []
  isSubStandardOut : Bool := false
  finalReportStatus : Option String := none
  deriving DecidableEq

/-- `vif c v` is the list produced by `if (c) violations.push(v)`. -/
def vif (c : Prop) [Decidable c] (v : Violation) : List Violation :=
  if c then [v] else []

theorem mem_vif {c : Prop} [inst : Decidable c] {v w : Violation} :
    v ∈ vif c w ↔ c ∧ v = w := by
  unfold vif
  split <;> simp_all

theorem vif_ne_nil {c : Prop} [inst : Decidable c] {w : Violation} (h : c) :
    vif c w ≠ [] := by
  unfold vif
  split <;> simp_all

namespace PlanningEngine

/-- The planning engine's copy of `zoneRequirements`. -/
def zoneRequirements : String → Option ZoneReq
  | "R-1" => some ⟨6000, 9999, 4980, 5976, 8100, 9720⟩
  | "R-1(7000)" => some ⟨7000, 13999, 5810, 6972, 9450, 11340⟩
  | "R-1(8000)" => some ⟨8000, 15999, 6640, 7968, 10800, 12960⟩
  | "R-1(10000)" => some ⟨10000, 19999, 8300, 9960, 13500, 16200⟩
  | "R-1(20000)" => some ⟨20000, 39999, 16600, 19920, 27000, 32400⟩
  | _ => none

/-- A planning task record (name and status string). -/
structure PTask where
  name : String
  status : String
  deriving DecidableEq

/-- `verifyLotSize`: pass iff the lot meets the zone minimum. -/
def verifyLotSize (zr : ZoneReq) (s : SiteData) : PTask :=
  ⟨"Lot Size Verification", if s.lotSize ≥ zr.minLotSize then "pass" else "fail"⟩

/-- The substandard threshold selected by lot type. -/
def subStandardThreshold (zr : ZoneReq) (s : SiteData) : ℚ :=
  if s.lotType = "flag" then zr.subStandardFlag else zr.subStandardTypical

/-- `determineSubStandardStatus`: substandard iff below the threshold. -/
def isSubStandardLot (zr : ZoneReq) (s : SiteData) : Bool :=
  if s.lotSize < subStandardThreshold zr s then true else false

/-- `calculateBuildableArea`. -/
def calculateBuildableArea (s : SiteData) : ℚ :=
  s.lotSize - s.creekAreas - s.easements

/-- The parameter bundle of `calculateFARParameters`. -/
structure FARParams where
  first5000Allowance : ℚ
  excessAllowance : ℚ
  calculatedFAR : ℚ
  maxFloorArea : ℚ
  deriving DecidableEq

/-- `calculateFARParameters`: two-tier floor-area allowance with a 6000 cap. -/
def calculateFARParameters (s : SiteData) : FARParams :=
  let first5000 := min s.lotSize 5000 * (45/100)
  let excess := max (s.lotSize - 5000) 0 * (30/100)
  let calculated := first5000 + excess
  ⟨first5000, excess, calculated, min calculated 6000⟩

/-- The second-unit minimum lot size selected by lot type. -/
def secondUnitMinRequired (zr : ZoneReq) (s : SiteData) : ℚ :=
  if s.lotType = "flag" then zr.secondUnitMinFlag else zr.secondUnitMinTypical

/-- `assessSecondUnitFeasibility`: feasible iff the lot meets the second-unit
minimum for its lot type. -/
def assessSecondUnitFeasibility (zr : ZoneReq) (s : SiteData) : PTask :=
  ⟨"Second Dwelling Unit Feasibility",
    if s.lotSize ≥ secondUnitMinRequired zr s then "feasible" else "not_feasible"⟩

/-- `calculateCoverageParameters`: 35 percent base plus 5 percent allowance. -/
def totalMaxCoverage (s : SiteData) : ℚ :=
  s.lotSize * (35/100) + s.lotSize * (5/100)

/-- Result record of one planning phase (status only; the parameter bundles
are given by the standalone calculation functions above). -/
structure PPhase where
  phase : ℕ
  status : String
  deriving DecidableEq

/-- `executePhase1`: stops immediately when lot-size verification fails. -/
def executePhase1 (zr : ZoneReq) (s : SiteData) : PPhase :=
  if (verifyLotSize zr s).status = "fail" then ⟨1, "stopped"⟩ else ⟨1, "completed"⟩

/-- `executePhase2` always completes (planning computes allowances only). -/
def executePhase2 : PPhase := ⟨2, "completed"⟩

/-- `executePhase3` always completes. -/
def executePhase3 : PPhase := ⟨3, "completed"⟩

/-- `executePhase4` always completes. -/
def executePhase4 : PPhase := ⟨4, "completed"⟩

/-- `executePhase5` always completes. -/
def executePhase5 : PPhase := ⟨5, "completed"⟩

/-- The planning `Workflow` record (statuses and phase list). -/
structure PWorkflow where
  overallStatus : String
  phases : List PPhase
  stopReason : Option String := none
  deriving DecidableEq

/-- `executePlanningWorkflow`: phase 1, stop on `stopped`, else phases 2-5.
An unknown zone makes phase 1 throw on the `undefined` requirement record;
the `try`/`catch` surfaces that as overall status `error` with no phase
recorded. -/
def executePlanningWorkflow (s : SiteData) : PWorkflow :=
  match zoneRequirements s.zone with
  | none => { overallStatus := "error", phases := [] }
  | some zr =>
    let p1 := executePhase1 zr s
    if p1.status = "stopped" then
      { overallStatus := "stopped", phases := [p1],
        stopReason := some "Critical site constraints identified" }
    else
      { overallStatus := "completed",
        phases := [p1, executePhase2, executePhase3, executePhase4, executePhase5] }

/-- A JavaScript runtime error kind, for the unknown-zone boundary analysis.
Reading a property of `undefined` raises `typeError`; `unknownZoneError` is
the dedicated error the specification asks for (no source path produces it). -/
inductive JsError
  | typeError
  | unknownZoneError
  deriving DecidableEq

/-- `verifyLotSize` with the zone lookup made explicit: looking up an unknown
zone yields `undefined`, and the immediate `zoneReq.minLotSize` access throws
a generic `TypeError`. -/
def verifyLotSizeChecked (s : SiteData) : Except JsError PTask :=
  match zoneRequirements s.zone with
  | none => .error .typeError
  | some zr => .ok (verifyLotSize zr s)

end PlanningEngine

namespace ValidationEngine

/-- The validation engine's copy of `zoneRequirements` (duplicated literals). -/
def zoneRequirements : String → Option ZoneReq
  | "R-1" => some ⟨6000, 9999, 4980, 5976, 8100, 9720⟩
  | "R-1(7000)" => some ⟨7000, 13999, 5810, 6972, 9450, 11340⟩
  | "R-1(8000)" => some ⟨8000, 15999, 6640, 7968, 10800, 12960⟩
  | "R-1(10000)" => some ⟨10000, 19999, 8300, 9960, 13500, 16200⟩
  | "R-1(20000)" => some ⟨20000, 39999, 16600, 19920, 27000, 32400⟩
  | _ => none

/-- `validateLotSize`: pass iff the lot meets the zone minimum (rule R001). -/
def validateLotSize (zr : ZoneReq) (s : SiteData) : Check :=
  ⟨"Lot Size Validation", some "R001",
    if s.lotSize ≥ zr.minLotSize then .PASS else .FAIL⟩

/-- The substandard threshold selected by lot type. -/
def subStandardThreshold (zr : ZoneReq) (s : SiteData) : ℚ :=
  if s.lotType = "flag" then zr.subStandardFlag else zr.subStandardTypical

/-- `validateSubStandardStatus` (informational): substandard iff below the
threshold. -/
def isSubStandardLot (zr : ZoneReq) (s : SiteData) : Bool :=
  if s.lotSize < subStandardThreshold zr s then true else false

/-- `validateZoneDistrict`: the site zone must equal the submitted zone. -/
def validateZoneDistrict (s : SiteData) (d : DesignData) : Check :=
  ⟨"Zone District Verification", none,
    if s.zone = d.submittedZone then .PASS else .FAIL⟩

/-- `validateHistoricConstraints`: fail only for a historic property whose
design lacks approved historic compliance. -/
def validateHistoricConstraints (s : SiteData) (d : DesignData) : Check :=
  match s.historicCategory with
  | none => ⟨"Historic Property Constraints", none, .PASS⟩
  | some _ =>
    ⟨"Historic Property Constraints", none,
      if d.historicCompliance = some "approved" then .PASS else .FAIL⟩

/-- `calculateBuildableArea` (validation copy). -/
def calculateBuildableArea (s : SiteData) : ℚ :=
  s.lotSize - s.creekAreas - s.easements

/-- `checkEnvironmentalEncroachments`: stub flags guarded by the presence of
creek areas / easements and a building footprint. -/
def checkEnvironmentalEncroachments (s : SiteData) (d : DesignData) : List String :=
  (if s.creekAreas ≠ 0 ∧ d.buildingFootprint ∧ d.encroachesCreek
    then ["creek channel"] else []) ++
  (if s.easements ≠ 0 ∧ d.buildingFootprint ∧ d.encroachesEasement
    then ["utility easement"] else [])

/-- `validateEnvironmentalExclusions`: fail iff any encroachment is flagged. -/
def validateEnvironmentalExclusions (s : SiteData) (d : DesignData) : Check :=
  ⟨"Environmental Exclusions", none,
    if checkEnvironmentalEncroachments s d = [] then .PASS else .FAIL⟩

/-- `validateBuildingHeight`: limit 17 ft on substandard lots, else 30 ft. -/
def validateBuildingHeight (d : DesignData) (isSubStandard : Bool) : Check :=
  let maxHeight : ℚ := if isSubStandard then 17 else 30
  ⟨"Building Height Compliance", some "CP002",
    if d.buildingHeight ≤ maxHeight then .PASS else .FAIL⟩

/-- `validateStoryEquivalency`: second-floor ceiling at most 17 ft (when at
least 2 floors), third-floor ceiling at most 26 ft (when at least 3). -/
def validateStoryEquivalency (d : DesignData) : Check :=
  ⟨"Story Height Equivalency", none,
    if (d.floors ≥ 2 ∧ d.secondFloorCeiling > 17) ∨
       (d.floors ≥ 3 ∧ d.thirdFloorCeiling > 26)
    then .FAIL else .PASS⟩

/-- `validateSetbacks`: front 20, interior side 5, rear 20, and street side 16
on corner lots (a missing street-side value coerces to 0). -/
def validateSetbacks (s : SiteData) (d : DesignData) : Check :=
  ⟨"Setback Compliance", some "CP004",
    if d.frontSetback < 20 ∨ d.interiorSideSetback < 5 ∨
       (s.isCornerLot ∧ d.streetSideSetback.getD 0 < 16) ∨ d.rearSetback < 20
    then .FAIL else .PASS⟩

/-- The FAR maximum of `validateFAR` (the engine's own copy of the tiered
formula with absolute cap). -/
def farMaxAllowed (lotSize : ℚ) : ℚ :=
  let first5000 := min lotSize 5000 * (45/100)
  let excess := max (lotSize - 5000) 0 * (30/100)
  let calculated := first5000 + excess
  min calculated 6000

/-- `validateFAR` (rule CP003): the total floor area must not exceed the
tiered maximum. -/
def validateFAR (s : SiteData) (d : DesignData) : Check :=
  ⟨"Floor Area Ratio (FAR) Validation", some "CP003",
    if d.totalFloorArea ≤ farMaxAllowed s.lotSize then .PASS else .FAIL⟩

/-- `validateDaylightPlane`: a design-supplied flag; only an explicit `false`
fails. -/
def validateDaylightPlane (d : DesignData) : Check :=
  ⟨"Daylight Plane Compliance", some "CP005",
    if d.daylightPlaneCompliant = some false then .FAIL else .PASS⟩

/-- `validateArchitecturalFeatures`: porch over 200 sq ft, entry projection
over 6 ft, or bay-window projection over 3 ft fails (absent fields pass). -/
def validateArchitecturalFeatures (d : DesignData) : Check :=
  ⟨"Architectural Feature Compliance", none,
    if d.porchArea.getD 0 > 200 ∨ d.entryProjection.getD 0 > 6 ∨
       d.bayWindowProjection.getD 0 > 3
    then .FAIL else .PASS⟩

/-- `validateLotCoverage` (rule CP013): coverage at most 35 plus 5 percent of
the lot. -/
def validateLotCoverage (s : SiteData) (d : DesignData) : Check :=
  ⟨"Lot Coverage Validation", some "CP013",
    if d.totalCoverage ≤ s.lotSize * (35/100) + s.lotSize * (5/100)
    then .PASS else .FAIL⟩

/-- `validateParkingSpaceCount` (rule CP006): 2 spaces, plus 2 with a second
unit. -/
def validateParkingSpaceCount (d : DesignData) : Check :=
  let required := 2 + (if d.hasSecondUnit then 2 else 0)
  ⟨"Parking Space Count", some "CP006",
    if d.parkingSpaces ≥ required then .PASS else .FAIL⟩

/-- `validateCoveredParking`: 1 covered space, plus 1 with a second unit. -/
def validateCoveredParking (d : DesignData) : Check :=
  let required := 1 + (if d.hasSecondUnit then 1 else 0)
  ⟨"Covered Parking Validation", none,
    if d.coveredParkingSpaces ≥ required then .PASS else .FAIL⟩

/-- `validateDrivewayDimensions` (rule CP007): surface width at least 8 ft and
clearance width at least 10 ft. -/
def validateDrivewayDimensions (d : DesignData) : Check :=
  ⟨"Driveway Dimensions", some "CP007",
    if d.drivewaySurfaceWidth < 8 ∨ d.drivewayClearanceWidth < 10
    then .FAIL else .PASS⟩

/-- `validateGaragePlacement` (rule CP014): not applicable without a garage;
corner lots need front 75 ft and street side 20 ft, others front 20 ft. -/
def validateGaragePlacement (s : SiteData) (d : DesignData) : Check :=
  if ¬ d.hasGarage then ⟨"Garage Placement", none, .NA⟩
  else if s.isCornerLot then
    if ¬ (d.garageFrontSetback ≥ 75 ∧ d.garageStreetSideSetback ≥ 20) then
      ⟨"Garage Placement (Corner Lot)", some "CP014", .FAIL⟩
    else ⟨"Garage Placement", none, .PASS⟩
  else
    if ¬ (d.garageFrontSetback ≥ 20) then
      ⟨"Garage Placement", some "CP014", .FAIL⟩
    else ⟨"Garage Placement", none, .PASS⟩

/-- `validateVehicleManeuverability`: backing distance at least 18 ft. -/
def validateVehicleManeuverability (d : DesignData) : Check :=
  ⟨"Vehicle Maneuverability", none,
    if d.backingDistance ≥ 18 then .PASS else .FAIL⟩

/-- The approved driveway materials. -/
def approvedMaterials : List String := ["concrete", "asphalt", "approved_pavers"]

/-- `validateDrivewayMaterials`: the material must be in the approved set. -/
def validateDrivewayMaterials (d : DesignData) : Check :=
  ⟨"Driveway Materials", none,
    if d.drivewayMaterial ∈ approvedMaterials then .PASS else .FAIL⟩

/-- The second-unit minimum lot size selected by lot type (validation copy). -/
def secondUnitMinRequired (zr : ZoneReq) (s : SiteData) : ℚ :=
  if s.lotType = "flag" then zr.secondUnitMinFlag else zr.secondUnitMinTypical

/-- `validateSecondDwellingUnit` (rule CP008): the lot must meet the
second-unit minimum for its lot type. -/
def validateSecondDwellingUnit (zr : ZoneReq) (s : SiteData) : Check :=
  ⟨"Second Dwelling Unit Lot Size", some "CP008",
    if s.lotSize ≥ secondUnitMinRequired zr s then .PASS else .FAIL⟩

/-- `validateSecondUnitSize` (rule CP017): the unit may be at most the lesser
of 640 sq ft and half the main house area. -/
def validateSecondUnitSize (d : DesignData) : Check :=
  let maxSize := min 640 (d.mainHouseArea * (5/10))
  ⟨"Second Unit Size", some "CP017",
    if d.secondUnitArea ≤ maxSize then .PASS else .FAIL⟩

/-- `validateAccessoryStructures`: each structure at most 15 ft high with at
least a 5 ft setback. -/
def validateAccessoryStructures (d : DesignData) : Check :=
  ⟨"Accessory Structures", none,
    if d.accessoryStructures.any (fun st =>
        decide (st.height > 15) || decide (st.setback < 5))
    then .FAIL else .PASS⟩

/-- `validatePoolSafety` (rule CP020): 5 ft setback and safety barriers. -/
def validatePoolSafety (d : DesignData) : Check :=
  ⟨"Pool Safety", some "CP020",
    if d.poolSetback < 5 ∨ ¬ d.poolSafetyBarriers then .FAIL else .PASS⟩

/-- `validateTotalCoverageWithFeatures`: the separate
`totalCoverageWithFeatures` field must be at most 40 percent of the lot; an
absent field makes the comparison false (`undefined` compares as NaN). -/
def validateTotalCoverageWithFeatures (s : SiteData) (d : DesignData) : Check :=
  ⟨"Total Coverage With Features", none,
    match d.totalCoverageWithFeatures with
    | some v => if v ≤ s.lotSize * (40/100) then .PASS else .FAIL
    | none => .FAIL⟩

/-- `validateProfessionalRequirements`: Architect and Structural Engineer
stamps are required. -/
def validateProfessionalRequirements (d : DesignData) : Check :=
  let missing := ["Architect", "Structural Engineer"].filter
    (fun st => ¬ st ∈ d.professionalStamps)
  ⟨"Professional Requirements", none, if missing = [] then .PASS else .FAIL⟩

/-- `validateDocumentationCompleteness`: four document kinds are required. -/
def validateDocumentationCompleteness (d : DesignData) : Check :=
  let missing := ["site_plan", "floor_plans", "elevations", "structural_calcs"].filter
    (fun doc => ¬ doc ∈ d.submittedDocuments)
  ⟨"Documentation Completeness", none, if missing = [] then .PASS else .FAIL⟩

/-- `collectAllViolations`: all prior phases' violations in phase order, then
the current phase's. -/
def collectAllViolations (prev : List VPhase) (cur : List Violation) : List Violation :=
  (prev.map VPhase.violations).flatten ++ cur

/-- Severity filter for the critical path (`absolute_stopper`). -/
def isAbsolute (v : Violation) : Bool :=
  v.vtype == VType.absolute_stopper

end ValidationEngine

namespace ValidationEngine

/-- The CP001 violation pushed by phase 1 on lot-size failure. -/
def lotSizeViolation : Violation :=
  ⟨.absolute_stopper, some "CP001", "Lot Requirements"⟩

/-- The violations pushed by `executePhase1Validation`, in push order. -/
def phase1Violations (zr : ZoneReq) (s : SiteData) (d : DesignData) : List Violation :=
  if (validateLotSize zr s).result = .FAIL then [lotSizeViolation]
  else
    vif ((validateZoneDistrict s d).result ≠ .PASS)
      ⟨.absolute_stopper, some "V001", "Zone Verification"⟩ ++
    vif ((validateHistoricConstraints s d).result = .FAIL)
      ⟨.major_stopper, some "CP009", "Historic Properties"⟩ ++
    vif ((validateEnvironmentalExclusions s d).result = .FAIL)
      ⟨.major_stopper, some "CP012", "Environmental"⟩

/-- `executePhase1Validation`: aborts with `critical_failure` on lot-size
failure, else runs the remaining four checks and reports
`violations_found`/`passed`. -/
def executePhase1Validation (zr : ZoneReq) (s : SiteData) (d : DesignData) : VPhase :=
  if (validateLotSize zr s).result = .FAIL then
    { phase := 1, status := "critical_failure",
      violations := phase1Violations zr s d }
  else
    { phase := 1,
      status := if phase1Violations zr s d ≠ [] then "violations_found" else "passed",
      violations := phase1Violations zr s d,
      warnings := if isSubStandardLot zr s then [⟨"height_restriction"⟩] else [],
      isSubStandardOut := isSubStandardLot zr s }

/-- The violations pushed by `executePhase2Validation`, in push order. -/
def phase2Violations (s : SiteData) (d : DesignData) (isSubStandard : Bool) :
    List Violation :=
  vif ((validateBuildingHeight d isSubStandard).result = .FAIL)
    ⟨.absolute_stopper, some "CP002", "Building Height"⟩ ++
  vif ((validateStoryEquivalency d).result = .FAIL)
    ⟨.design_stopper, some "CP015", "Story Height"⟩ ++
  vif ((validateSetbacks s d).result = .FAIL)
    ⟨.absolute_stopper, some "CP004", "Setbacks"⟩ ++
  vif ((validateFAR s d).result = .FAIL)
    ⟨.absolute_stopper, some "CP003", "Floor Area"⟩ ++
  vif ((validateDaylightPlane d).result = .FAIL)
    ⟨.major_stopper, some "CP005", "Building Envelope"⟩ ++
  vif ((validateArchitecturalFeatures d).result = .FAIL)
    ⟨.design_stopper, none, "Architectural Features"⟩ ++
  vif ((validateLotCoverage s d).result = .FAIL)
    ⟨.design_stopper, some "CP013", "Lot Coverage"⟩

/-- `executePhase2Validation`: the seven envelope checks, none
short-circuiting. -/
def executePhase2Validation (s : SiteData) (d : DesignData) (isSubStandard : Bool) :
    VPhase :=
  { phase := 2,
    status := if phase2Violations s d isSubStandard ≠ []
      then "violations_found" else "passed",
    violations := phase2Violations s d isSubStandard }

/-- The violations pushed by `executePhase3Validation`, in push order; a
driveway-materials failure pushes a warning, never a violation. -/
def phase3Violations (s : SiteData) (d : DesignData) : List Violation :=
  vif ((validateParkingSpaceCount d).result = .FAIL)
    ⟨.major_stopper, some "CP006", "Parking"⟩ ++
  vif ((validateCoveredParking d).result = .FAIL)
    ⟨.major_stopper, none, "Covered Parking"⟩ ++
  vif ((validateDrivewayDimensions d).result = .FAIL)
    ⟨.major_stopper, some "CP007", "Access"⟩ ++
  vif ((validateGaragePlacement s d).result = .FAIL)
    ⟨.design_stopper, some "CP014", "Garage Placement"⟩ ++
  vif ((validateVehicleManeuverability d).result = .FAIL)
    ⟨.major_stopper, none, "Vehicle Access"⟩

/-- `executePhase3Validation`: the six parking/access checks. -/
def executePhase3Validation (s : SiteData) (d : DesignData) : VPhase :=
  { phase := 3,
    status := if phase3Violations s d ≠ [] then "violations_found" else "passed",
    violations := phase3Violations s d,
    warnings := if (validateDrivewayMaterials d).result = .FAIL
      then [⟨"materials"⟩] else [] }

/-- The violations pushed by `executePhase4Validation`, in push order.  The
second-unit, accessory-structure and pool checks run only when the feature is
present; the total-coverage check always runs. -/
def phase4Violations (zr : ZoneReq) (s : SiteData) (d : DesignData) : List Violation :=
  vif (d.hasSecondUnit ∧ (validateSecondDwellingUnit zr s).result = .FAIL)
    ⟨.major_stopper, some "CP008", "Second Dwelling Unit"⟩ ++
  vif (d.hasSecondUnit ∧ (validateSecondUnitSize d).result = .FAIL)
    ⟨.design_stopper, some "CP017", "Second Unit Design"⟩ ++
  vif (d.accessoryStructures ≠ [] ∧ (validateAccessoryStructures d).result = .FAIL)
    ⟨.design_stopper, none, "Accessory Structures"⟩ ++
  vif (d.hasPool ∧ (validatePoolSafety d).result = .FAIL)
    ⟨.design_stopper, some "CP020", "Pool Safety"⟩ ++
  vif ((validateTotalCoverageWithFeatures s d).result = .FAIL)
    ⟨.design_stopper, none, "Total Coverage"⟩

/-- `executePhase4Validation`: the feature-conditional checks plus the
always-run total-coverage-with-features check. -/
def executePhase4Validation (zr : ZoneReq) (s : SiteData) (d : DesignData) : VPhase :=
  { phase := 4,
    status := if phase4Violations zr s d ≠ [] then "violations_found" else "passed",
    violations := phase4Violations zr s d }

/-- The violations pushed by `executePhase5Validation` itself (two
process-stopper checks; the comprehensive and critical-path checks push
none). -/
def phase5OwnViolations (d : DesignData) : List Violation :=
  vif ((validateProfessionalRequirements d).result = .FAIL)
    ⟨.process_stopper, none, "Professional Requirements"⟩ ++
  vif ((validateDocumentationCompleteness d).result = .FAIL)
    ⟨.process_stopper, none, "Documentation"⟩

/-- Final `overallStatus` of `generateValidationReport` over a collected
violation list. -/
def reportOverallStatus (allViolations : List Violation) : String :=
  if (allViolations.filter isAbsolute) ≠ [] then "REJECTED"
  else if allViolations ≠ [] then "CONDITIONAL"
  else "APPROVED"

/-- Final phase-5 status over a collected violation list. -/
def phase5Status (allViolations : List Violation) : String :=
  if (allViolations.filter isAbsolute) ≠ [] then "rejected"
  else if allViolations ≠ [] then "conditional"
  else "approved"

/-- `executePhase5Validation`: the two process checks, the final report, and
the status derivation over the violations of all phases. -/
def executePhase5Validation (s : SiteData) (d : DesignData) (prev : List VPhase) :
    VPhase :=
  let allViolations := collectAllViolations prev (phase5OwnViolations d)
  { phase := 5,
    status := phase5Status allViolations,
    violations := phase5OwnViolations d,
    finalReportStatus := some (reportOverallStatus allViolations) }

/-- The validation `Workflow` record. -/
structure VWorkflow where
  overallStatus : String
  phases : List VPhase
  stopReason : Option String := none
  finalReportStatus : Option String := none
  deriving DecidableEq

/-- `executeValidationWorkflow`: phase 1, early exit on `critical_failure`,
else phases 2-5 threaded in order.  An unknown zone makes phase 1 throw on
the `undefined` requirement record; the `try`/`catch` surfaces that as
overall status `error` with no phase recorded. -/
def executeValidationWorkflow (s : SiteData) (d : DesignData) : VWorkflow :=
  match zoneRequirements s.zone with
  | none => { overallStatus := "error", phases := [] }
  | some zr =>
    let p1 := executePhase1Validation zr s d
    if p1.status = "critical_failure" then
      { overallStatus := "rejected", phases := [p1],
        stopReason := some "Critical site validation failures" }
    else
      let p2 := executePhase2Validation s d p1.isSubStandardOut
      let p3 := executePhase3Validation s d
      let p4 := executePhase4Validation zr s d
      let p5 := executePhase5Validation s d [p1, p2, p3, p4]
      { overallStatus := p5.status, phases := [p1, p2, p3, p4, p5],
        finalReportStatus := p5.finalReportStatus }

/-- `validateLotSize` with the zone lookup made explicit: looking up an
unknown zone yields `undefined`, and the immediate `zoneReq.minLotSize`
access throws a generic `TypeError` (validation-engine copy). -/
def validateLotSizeChecked (s : SiteData) : Except PlanningEngine.JsError Check :=
  match zoneRequirements s.zone with
  | none => .error .typeError
  | some zr => .ok (validateLotSize zr s)

end ValidationEngine

/-! ## Concrete inputs used by witnesses -/

/-- A site with the given zone and lot size and no other constraints. -/
def mkSite (zone : String) (lot : ℚ) : SiteData :=
  { address := "123 Main St", zone := zone, lotSize := lot,
    lotType := "typical", isCornerLot := false, creekAreas := 0,
    easements := 0, historicCategory := none, hasSecondUnit := false }

/-- The R-1 row of the zone table, for concrete statements. -/
def R1Req : ZoneReq := ⟨6000, 9999, 4980, 5976, 8100, 9720⟩

/-- A design that passes every validation check. -/
def goodDesign : DesignData :=
  { submittedZone := "R-1"
    buildingHeight := 25
    totalFloorArea := 2000
    floors := 2
    secondFloorCeiling := 9
    thirdFloorCeiling := 0
    totalCoverage := 2000
    frontSetback := 21
    interiorSideSetback := 6
    streetSideSetback := some 16
    rearSetback := 21
    parkingSpaces := 2
    coveredParkingSpaces := 1
    drivewaySurfaceWidth := 9
    drivewayClearanceWidth := 11
    backingDistance := 18
    hasSecondUnit := false
    hasPool := false
    hasGarage := false
    daylightPlaneCompliant := some true
    drivewayMaterial := "concrete"
    porchArea := none
    entryProjection := none
    bayWindowProjection := none
    garageFrontSetback := 20
    garageStreetSideSetback := 20
    poolSetback := 5
    poolSafetyBarriers := true
    accessoryStructures := []
    secondUnitArea := 0
    mainHouseArea := 2000
    totalCoverageWithFeatures := some 2000
    historicCompliance := none
    buildingFootprint := false
    encroachesCreek := false
    encroachesEasement := false
    professionalStamps := ["Architect", "Structural Engineer"]
    submittedDocuments := ["site_plan", "floor_plans", "elevations", "structural_calcs"] }

/-! ## Shared lemmas -/

/-- The two engines hold syntactically identical zone tables. -/
theorem zone_tables_agree :
    PlanningEngine.zoneRequirements = ValidationEngine.zoneRequirements := rfl

/-! ## Claims -/

/-- C1: the planning engine's phase-2 FAR computation returns
`maxFloorArea = min(min(lotSize,5000)*0.45 + max(lotSize-5000,0)*0.30, 6000)`
for every site; lot sizes 4000, 8000 and 20000 give 1800, 3150 and 6000. -/
theorem C1_far_formula :
    (∀ s : SiteData, (PlanningEngine.calculateFARParameters s).maxFloorArea =
      min (min s.lotSize 5000 * (45/100) + max (s.lotSize - 5000) 0 * (30/100)) 6000)
    ∧ (PlanningEngine.calculateFARParameters (mkSite "R-1" 4000)).maxFloorArea = 1800
    ∧ (PlanningEngine.calculateFARParameters (mkSite "R-1(8000)" 8000)).maxFloorArea = 3150
    ∧ (PlanningEngine.calculateFARParameters (mkSite "R-1(20000)" 20000)).maxFloorArea = 6000 := by
  refine ⟨fun s => rfl, ?_, ?_, ?_⟩ <;>
    norm_num [PlanningEngine.calculateFARParameters, mkSite, min_def, max_def]

/-- C5: every zone row of the static table has `minLotSize < maxLotSize`,
`subStandardTypical < subStandardFlag` and
`secondUnitMinTypical < secondUnitMinFlag`, and the planning engine's table
equals the validation engine's. -/
theorem C5_zone_invariants :
    (∀ z zr, PlanningEngine.zoneRequirements z = some zr →
      zr.minLotSize < zr.maxLotSize ∧
      zr.subStandardTypical < zr.subStandardFlag ∧
      zr.secondUnitMinTypical < zr.secondUnitMinFlag)
    ∧ PlanningEngine.zoneRequirements = ValidationEngine.zoneRequirements := by
  refine ⟨?_, zone_tables_agree⟩
  intro z zr h
  unfold PlanningEngine.zoneRequirements at h
  split at h <;> simp only [Option.some.injEq, reduceCtorEq] at h <;> subst h <;>
    refine ⟨by norm_num, by norm_num, by norm_num⟩

/-- C5 witness: the invariants instantiated at zone R-1. -/
theorem C5_zone_invariants_witness :
    PlanningEngine.zoneRequirements "R-1" = some R1Req ∧
    (R1Req.minLotSize < R1Req.maxLotSize ∧
     R1Req.subStandardTypical < R1Req.subStandardFlag ∧
     R1Req.secondUnitMinTypical < R1Req.secondUnitMinFlag) :=
  ⟨rfl, C5_zone_invariants.1 "R-1" R1Req rfl⟩

/-- C4: the validation engine's FAR maximum agrees with the planning engine's
phase-2 FAR computation on every lot size, and the FAR check fails — placing
the absolute-stopper CP003 violation in phase 2 — exactly when the design's
total floor area exceeds that maximum. -/
theorem C4_far_refinement :
    (∀ s : SiteData, (PlanningEngine.calculateFARParameters s).maxFloorArea =
      ValidationEngine.farMaxAllowed s.lotSize)
    ∧ (∀ (s : SiteData) (d : DesignData),
        (ValidationEngine.validateFAR s d).result = .FAIL ↔
        ¬ d.totalFloorArea ≤ ValidationEngine.farMaxAllowed s.lotSize)
    ∧ (∀ (s : SiteData) (d : DesignData) (isSub : Bool),
        (⟨.absolute_stopper, some "CP003", "Floor Area"⟩ : Violation) ∈
          ValidationEngine.phase2Violations s d isSub ↔
        ¬ d.totalFloorArea ≤ ValidationEngine.farMaxAllowed s.lotSize) := by
  have hfar : ∀ (s : SiteData) (d : DesignData),
      (ValidationEngine.validateFAR s d).result = .FAIL ↔
      ¬ d.totalFloorArea ≤ ValidationEngine.farMaxAllowed s.lotSize := by
    intro s d
    unfold ValidationEngine.validateFAR
    split <;> simp_all
  refine ⟨fun s => rfl, hfar, ?_⟩
  intro s d isSub
  simp [ValidationEngine.phase2Violations, mem_vif, hfar]

/-- C9: the validation workflow is a pure function of its explicit inputs:
any two runs on the same site and design data yield identical per-phase
violation lists and identical overall status. -/
theorem C9_determinism (s : SiteData) (d : DesignData)
    (w₁ w₂ : ValidationEngine.VWorkflow)
    (h₁ : w₁ = ValidationEngine.executeValidationWorkflow s d)
    (h₂ : w₂ = ValidationEngine.executeValidationWorkflow s d) :
    w₁.phases.map VPhase.violations = w₂.phases.map VPhase.violations ∧
    w₁.overallStatus = w₂.overallStatus := by
  subst h₁
  subst h₂
  exact ⟨rfl, rfl⟩

/-- C9 witness: the two-run agreement at a concrete site and design. -/
theorem C9_determinism_witness :
    (ValidationEngine.executeValidationWorkflow (mkSite "R-1" 7000) goodDesign).phases.map
        VPhase.violations =
      (ValidationEngine.executeValidationWorkflow (mkSite "R-1" 7000) goodDesign).phases.map
        VPhase.violations ∧
    (ValidationEngine.executeValidationWorkflow (mkSite "R-1" 7000) goodDesign).overallStatus =
      (ValidationEngine.executeValidationWorkflow (mkSite "R-1" 7000) goodDesign).overallStatus :=
  C9_determinism (mkSite "R-1" 7000) goodDesign _ _ rfl rfl

/-- The critical-path filter is nonempty iff some collected violation is an
`absolute_stopper`. -/
theorem filter_absolute_ne_nil_iff (l : List Violation) :
    l.filter ValidationEngine.isAbsolute ≠ [] ↔
    ∃ v ∈ l, v.vtype = VType.absolute_stopper := by
  simp [List.filter_eq_nil_iff, ValidationEngine.isAbsolute]

/-- C2: phase 5 derives the final status from the violations of all five
phases: any `absolute_stopper` gives `rejected`/`REJECTED`; otherwise any
violation gives `conditional`/`CONDITIONAL`; otherwise `approved`/`APPROVED`.
A run whose violations are all `major_stopper` is `conditional`, never
`rejected`. -/
theorem C2_final_status (s : SiteData) (d : DesignData) (prev : List VPhase)
    (p5 : VPhase) (hp5 : p5 = ValidationEngine.executePhase5Validation s d prev)
    (allV : List Violation)
    (hall : allV = ValidationEngine.collectAllViolations prev p5.violations) :
    ((∃ v ∈ allV, v.vtype = VType.absolute_stopper) →
      p5.status = "rejected" ∧ p5.finalReportStatus = some "REJECTED")
    ∧ ((∀ v ∈ allV, v.vtype ≠ VType.absolute_stopper) → allV ≠ [] →
      p5.status = "conditional" ∧ p5.finalReportStatus = some "CONDITIONAL")
    ∧ (allV = [] →
      p5.status = "approved" ∧ p5.finalReportStatus = some "APPROVED")
    ∧ ((∀ v ∈ allV, v.vtype = VType.major_stopper) → allV ≠ [] →
      p5.status = "conditional" ∧ p5.status ≠ "rejected") := by
  subst hp5
  have hstat : (ValidationEngine.executePhase5Validation s d prev).status =
      ValidationEngine.phase5Status allV := by
    subst hall; rfl
  have hrep : (ValidationEngine.executePhase5Validation s d prev).finalReportStatus =
      some (ValidationEngine.reportOverallStatus allV) := by
    subst hall; rfl
  rw [hstat, hrep]
  unfold ValidationEngine.phase5Status ValidationEngine.reportOverallStatus
  refine ⟨?_, ?_, ?_, ?_⟩
  · intro hex
    have h1 : allV.filter ValidationEngine.isAbsolute ≠ [] :=
      (filter_absolute_ne_nil_iff allV).2 hex
    rw [if_pos h1, if_pos h1]
    exact ⟨rfl, rfl⟩
  · intro hno hne
    have h1 : ¬ allV.filter ValidationEngine.isAbsolute ≠ [] := by
      intro hc
      obtain ⟨v, hv, habs⟩ := (filter_absolute_ne_nil_iff allV).1 hc
      exact hno v hv habs
    rw [if_neg h1, if_neg h1, if_pos hne, if_pos hne]
    exact ⟨rfl, rfl⟩
  · intro hnil
    subst hnil
    simp
  · intro hmaj hne
    have h1 : ¬ (allV.filter ValidationEngine.isAbsolute) ≠ [] := by
      intro hc
      obtain ⟨v, hv, habs⟩ := (filter_absolute_ne_nil_iff allV).1 hc
      rw [hmaj v hv] at habs
      cases habs
    rw [if_neg h1, if_pos hne]
    exact ⟨rfl, by decide⟩

/-- A prior phase carrying exactly one `major_stopper` violation. -/
def majorOnlyPhase : VPhase :=
  { phase := 1, status := "violations_found",
    violations := [⟨.major_stopper, some "CP009", "Historic Properties"⟩] }

/-- C2 witness: with a single major-stopper violation in a prior phase and a
complete document/stamp set, phase 5 reports `conditional`. -/
theorem C2_final_status_witness :
    (ValidationEngine.executePhase5Validation (mkSite "R-1" 7000) goodDesign
      [majorOnlyPhase]).status = "conditional" := by
  have h := C2_final_status (mkSite "R-1" 7000) goodDesign [majorOnlyPhase] _ rfl _ rfl
  exact (h.2.2.2 (by decide) (by decide)).1

/-- C3: a lot strictly below the zone minimum stops the planning workflow
after phase 1 (overall status `stopped`, phases `[phase1]`) and aborts the
validation workflow after phase 1 (overall status `rejected`, phases
`[phase1]` with phase-1 status `critical_failure`); phases 2-5 never run. -/
theorem C3_short_circuit (s : SiteData) (zr : ZoneReq)
    (hz : PlanningEngine.zoneRequirements s.zone = some zr)
    (hlt : s.lotSize < zr.minLotSize) :
    (PlanningEngine.executePlanningWorkflow s).overallStatus = "stopped" ∧
    (PlanningEngine.executePlanningWorkflow s).phases = [⟨1, "stopped"⟩] ∧
    ∀ d : DesignData,
      (ValidationEngine.executeValidationWorkflow s d).overallStatus = "rejected" ∧
      (ValidationEngine.executeValidationWorkflow s d).phases =
        [ValidationEngine.executePhase1Validation zr s d] ∧
      (ValidationEngine.executePhase1Validation zr s d).status = "critical_failure" := by
  have hge : ¬ s.lotSize ≥ zr.minLotSize := not_le.mpr hlt
  have hp1 : PlanningEngine.executePhase1 zr s = ⟨1, "stopped"⟩ := by
    simp [PlanningEngine.executePhase1, PlanningEngine.verifyLotSize, hge]
  have hzv : ValidationEngine.zoneRequirements s.zone = some zr :=
    zone_tables_agree ▸ hz
  refine ⟨?_, ?_, ?_⟩
  · simp [PlanningEngine.executePlanningWorkflow, hz, hp1]
  · simp [PlanningEngine.executePlanningWorkflow, hz, hp1]
  · intro d
    have hcf : (ValidationEngine.executePhase1Validation zr s d).status =
        "critical_failure" := by
      simp [ValidationEngine.executePhase1Validation, ValidationEngine.validateLotSize, hge]
    refine ⟨?_, ?_, hcf⟩
    · simp [ValidationEngine.executeValidationWorkflow, hzv, hcf]
    · simp [ValidationEngine.executeValidationWorkflow, hzv, hcf]

/-- C3 witness: a 100 sq ft R-1 lot stops planning and gets validation
rejected after phase 1 only. -/
theorem C3_short_circuit_witness :
    (PlanningEngine.executePlanningWorkflow (mkSite "R-1" 100)).overallStatus = "stopped" ∧
    (PlanningEngine.executePlanningWorkflow (mkSite "R-1" 100)).phases.length = 1 ∧
    (ValidationEngine.executeValidationWorkflow (mkSite "R-1" 100) goodDesign).overallStatus =
      "rejected" ∧
    (ValidationEngine.executeValidationWorkflow (mkSite "R-1" 100) goodDesign).phases.length =
      1 := by
  have h := C3_short_circuit (mkSite "R-1" 100) R1Req rfl (by decide)
  have hd := h.2.2 goodDesign
  refine ⟨h.1, ?_, hd.1, ?_⟩
  · rw [h.2.1]
    rfl
  · rw [hd.2.1]
    rfl

/-- C6: second-unit rules.  In planning, an R-1 typical 8099 sq ft lot is not
feasible and an 8100 sq ft lot is feasible; feasibility is exactly
`lotSize ≥ secondUnitMin(lotType)`.  In validation, with a second unit, the
CP008 major-stopper appears exactly when the lot is below that minimum and
the CP017 design-stopper appears exactly when the unit exceeds
`min(640, mainHouseArea*0.5)`. -/
theorem C6_second_unit :
    ((PlanningEngine.zoneRequirements "R-1").map (fun zr =>
        (PlanningEngine.assessSecondUnitFeasibility zr (mkSite "R-1" 8099)).status) =
      some "not_feasible")
    ∧ ((PlanningEngine.zoneRequirements "R-1").map (fun zr =>
        (PlanningEngine.assessSecondUnitFeasibility zr (mkSite "R-1" 8100)).status) =
      some "feasible")
    ∧ (∀ zr s, (PlanningEngine.assessSecondUnitFeasibility zr s).status = "feasible" ↔
        s.lotSize ≥ PlanningEngine.secondUnitMinRequired zr s)
    ∧ (∀ zr s, PlanningEngine.secondUnitMinRequired zr s =
        if s.lotType = "flag" then zr.secondUnitMinFlag else zr.secondUnitMinTypical)
    ∧ (∀ zr s d, d.hasSecondUnit = true →
        (((⟨.major_stopper, some "CP008", "Second Dwelling Unit"⟩ : Violation) ∈
            ValidationEngine.phase4Violations zr s d) ↔
          ¬ s.lotSize ≥ ValidationEngine.secondUnitMinRequired zr s))
    ∧ (∀ zr s d, d.hasSecondUnit = true →
        (((⟨.design_stopper, some "CP017", "Second Unit Design"⟩ : Violation) ∈
            ValidationEngine.phase4Violations zr s d) ↔
          ¬ d.secondUnitArea ≤ min 640 (d.mainHouseArea * (5/10)))) := by
  have hsu : ∀ zr s, (ValidationEngine.validateSecondDwellingUnit zr s).result = .FAIL ↔
      ¬ s.lotSize ≥ ValidationEngine.secondUnitMinRequired zr s := by
    intro zr s
    unfold ValidationEngine.validateSecondDwellingUnit
    split <;> simp_all
  have hsz : ∀ d : DesignData, (ValidationEngine.validateSecondUnitSize d).result = .FAIL ↔
      ¬ d.secondUnitArea ≤ min 640 (d.mainHouseArea * (5/10)) := by
    intro d
    unfold ValidationEngine.validateSecondUnitSize
    dsimp only
    split <;> simp_all
  refine ⟨by decide, by decide, ?_, fun zr s => rfl, ?_, ?_⟩
  · intro zr s
    unfold PlanningEngine.assessSecondUnitFeasibility
    split <;> simp_all
  · intro zr s d hd
    simp [ValidationEngine.phase4Violations, mem_vif, hd, hsu]
  · intro zr s d hd
    simp [ValidationEngine.phase4Violations, mem_vif, hd, hsz]

/-- C6 witness: an R-1 typical 8099 sq ft lot with a second unit receives the
CP008 violation in validation phase 4. -/
theorem C6_second_unit_witness :
    (⟨.major_stopper, some "CP008", "Second Dwelling Unit"⟩ : Violation) ∈
      ValidationEngine.phase4Violations R1Req (mkSite "R-1" 8099)
        { goodDesign with hasSecondUnit := true } :=
  (C6_second_unit.2.2.2.2.1 R1Req (mkSite "R-1" 8099)
    { goodDesign with hasSecondUnit := true } (by decide)).mpr (by decide)

/-- C7: a driveway material outside the approved set fails the materials
check, but phase 3 only appends a warning for it: the phase-3 violation list
is independent of the material, a design whose other five phase-3 checks pass
keeps phase-3 status `passed`, and changing the material never changes the
workflow's overall status. -/
theorem C7_materials_warning_only :
    (∀ d : DesignData, (ValidationEngine.validateDrivewayMaterials d).result = .FAIL ↔
      ¬ d.drivewayMaterial ∈ ValidationEngine.approvedMaterials)
    ∧ (∀ (s : SiteData) (d : DesignData),
        (ValidationEngine.executePhase3Validation s d).warnings =
        if (ValidationEngine.validateDrivewayMaterials d).result = .FAIL
        then [⟨"materials"⟩] else [])
    ∧ (∀ (s : SiteData) (d : DesignData) (m : String),
        ValidationEngine.phase3Violations s { d with drivewayMaterial := m } =
        ValidationEngine.phase3Violations s d)
    ∧ (∀ (s : SiteData) (d : DesignData) (m : String),
        (ValidationEngine.executeValidationWorkflow s
          { d with drivewayMaterial := m }).overallStatus =
        (ValidationEngine.executeValidationWorkflow s d).overallStatus)
    ∧ (∀ (s : SiteData) (d : DesignData),
        (ValidationEngine.validateParkingSpaceCount d).result ≠ .FAIL →
        (ValidationEngine.validateCoveredParking d).result ≠ .FAIL →
        (ValidationEngine.validateDrivewayDimensions d).result ≠ .FAIL →
        (ValidationEngine.validateGaragePlacement s d).result ≠ .FAIL →
        (ValidationEngine.validateVehicleManeuverability d).result ≠ .FAIL →
        (ValidationEngine.executePhase3Validation s d).violations = [] ∧
        (ValidationEngine.executePhase3Validation s d).status = "passed") := by
  refine ⟨?_, fun s d => rfl, fun s d m => rfl, ?_, ?_⟩
  · intro d
    unfold ValidationEngine.validateDrivewayMaterials
    split <;> simp_all
  · intro s d m
    cases hz : ValidationEngine.zoneRequirements s.zone with
    | none => simp [ValidationEngine.executeValidationWorkflow, hz]
    | some zr =>
      have e1 : ValidationEngine.executePhase1Validation zr s
          { d with drivewayMaterial := m } =
          ValidationEngine.executePhase1Validation zr s d := rfl
      have e2 : ∀ b, ValidationEngine.executePhase2Validation s
          { d with drivewayMaterial := m } b =
          ValidationEngine.executePhase2Validation s d b := fun b => rfl
      have e3 : (ValidationEngine.executePhase3Validation s
          { d with drivewayMaterial := m }).violations =
          (ValidationEngine.executePhase3Validation s d).violations := rfl
      have e4 : ValidationEngine.executePhase4Validation zr s
          { d with drivewayMaterial := m } =
          ValidationEngine.executePhase4Validation zr s d := rfl
      have e5 : ValidationEngine.phase5OwnViolations { d with drivewayMaterial := m } =
          ValidationEngine.phase5OwnViolations d := rfl
      simp only [ValidationEngine.executeValidationWorkflow, hz]
      rw [e1]
      by_cases hcf : (ValidationEngine.executePhase1Validation zr s d).status =
          "critical_failure"
      · rw [if_pos hcf, if_pos hcf]
      · rw [if_neg hcf, if_neg hcf]
        dsimp only
        simp only [ValidationEngine.executePhase5Validation,
          ValidationEngine.collectAllViolations, List.map_cons, List.map_nil,
          List.flatten_cons, List.flatten_nil, e2, e3, e4, e5]
  · intro s d h1 h2 h3 h4 h5
    have hv : ValidationEngine.phase3Violations s d = [] := by
      simp [ValidationEngine.phase3Violations, vif, h1, h2, h3, h4, h5]
    constructor
    · simpa [ValidationEngine.executePhase3Validation] using hv
    · simp [ValidationEngine.executePhase3Validation, hv]

/-- C7 witness: a design failing only the materials check gets phase-3 status
`passed`, no violation, and the materials warning. -/
theorem C7_materials_warning_only_witness :
    (ValidationEngine.executePhase3Validation (mkSite "R-1" 7000)
      { goodDesign with drivewayMaterial := "dirt" }).status = "passed" ∧
    (ValidationEngine.executePhase3Validation (mkSite "R-1" 7000)
      { goodDesign with drivewayMaterial := "dirt" }).warnings = [⟨"materials"⟩] := by
  have h := C7_materials_warning_only
  refine ⟨(h.2.2.2.2 (mkSite "R-1" 7000) { goodDesign with drivewayMaterial := "dirt" }
    (by decide) (by decide) (by decide) (by decide) (by decide)).2, ?_⟩
  rw [h.2.1 (mkSite "R-1" 7000) { goodDesign with drivewayMaterial := "dirt" }]
  decide

/-- C8 counterexample: for the unknown zone code R-2, the lookup yields no
record and the lot-size step raises a generic `TypeError` when it reads
`minLotSize` of `undefined` — not the dedicated `UnknownZoneError` the claim
asserts, in either engine. -/
theorem C8_counterexample :
    PlanningEngine.zoneRequirements "R-2" = none ∧
    PlanningEngine.verifyLotSizeChecked (mkSite "R-2" 7000) =
      .error PlanningEngine.JsError.typeError ∧
    ¬ PlanningEngine.verifyLotSizeChecked (mkSite "R-2" 7000) =
      .error PlanningEngine.JsError.unknownZoneError ∧
    ValidationEngine.validateLotSizeChecked (mkSite "R-2" 7000) =
      .error PlanningEngine.JsError.typeError ∧
    ¬ ValidationEngine.validateLotSizeChecked (mkSite "R-2" 7000) =
      .error PlanningEngine.JsError.unknownZoneError := by
  refine ⟨rfl, rfl, ?_, rfl, ?_⟩ <;> intro h <;>
    exact PlanningEngine.JsError.noConfusion (Except.error.inj h)

/-- C8 (amended): for every site whose zone is outside the static table, the
lookup returns no requirement record (`undefined`); the phase computation
then aborts with a generic `TypeError` rather than completing on an undefined
record, and the workflow orchestrators catch it, reporting overall status
`error` with no phase executed.  No dedicated `UnknownZoneError` exists. -/
theorem C8_unknown_zone_amended (s : SiteData)
    (h : PlanningEngine.zoneRequirements s.zone = none) :
    PlanningEngine.verifyLotSizeChecked s = .error PlanningEngine.JsError.typeError
    ∧ ValidationEngine.validateLotSizeChecked s = .error PlanningEngine.JsError.typeError
    ∧ (PlanningEngine.executePlanningWorkflow s).overallStatus = "error"
    ∧ (PlanningEngine.executePlanningWorkflow s).phases = []
    ∧ ∀ d : DesignData,
        (ValidationEngine.executeValidationWorkflow s d).overallStatus = "error" ∧
        (ValidationEngine.executeValidationWorkflow s d).phases = [] := by
  have hv : ValidationEngine.zoneRequirements s.zone = none := zone_tables_agree ▸ h
  refine ⟨?_, ?_, ?_, ?_, ?_⟩
  · simp [PlanningEngine.verifyLotSizeChecked, h]
  · simp [ValidationEngine.validateLotSizeChecked, hv]
  · simp [PlanningEngine.executePlanningWorkflow, h]
  · simp [PlanningEngine.executePlanningWorkflow, h]
  · intro d
    exact ⟨by simp [ValidationEngine.executeValidationWorkflow, hv],
      by simp [ValidationEngine.executeValidationWorkflow, hv]⟩

/-- C8 witness: the amended behaviour at the concrete unknown zone R-2. -/
theorem C8_unknown_zone_amended_witness :
    (PlanningEngine.executePlanningWorkflow (mkSite "R-2" 7000)).overallStatus = "error" ∧
    (ValidationEngine.executeValidationWorkflow (mkSite "R-2" 7000)
      goodDesign).overallStatus = "error" := by
  have h := C8_unknown_zone_amended (mkSite "R-2" 7000) rfl
  exact ⟨h.2.2.1, (h.2.2.2.2 goodDesign).1⟩

/-- A collected violation list that is nonempty never yields phase-5 status
`approved`. -/
theorem phase5Status_ne_approved (l : List Violation) (h : l ≠ []) :
    ValidationEngine.phase5Status l ≠ "approved" := by
  unfold ValidationEngine.phase5Status
  split_ifs with h1
  · decide
  · decide

/-- C10: the always-run phase-4 total-coverage check reads the separate
`totalCoverageWithFeatures` field (not `totalCoverage`); when that field is
absent the check fails, the design-stopper Total Coverage violation is
recorded, and the workflow can never end `approved`. -/
theorem C10_coverage_with_features (s : SiteData) (d : DesignData)
    (h : d.totalCoverageWithFeatures = none) :
    (ValidationEngine.validateTotalCoverageWithFeatures s d).result = .FAIL
    ∧ (∀ c, ValidationEngine.validateTotalCoverageWithFeatures s
        { d with totalCoverage := c } =
        ValidationEngine.validateTotalCoverageWithFeatures s d)
    ∧ (∀ zr, (⟨.design_stopper, none, "Total Coverage"⟩ : Violation) ∈
        ValidationEngine.phase4Violations zr s d)
    ∧ (ValidationEngine.executeValidationWorkflow s d).overallStatus ≠ "approved" := by
  have htc : (ValidationEngine.validateTotalCoverageWithFeatures s d).result = .FAIL := by
    simp [ValidationEngine.validateTotalCoverageWithFeatures, h]
  have h4 : ∀ zr, ValidationEngine.phase4Violations zr s d ≠ [] := by
    intro zr hc
    unfold ValidationEngine.phase4Violations at hc
    exact vif_ne_nil htc (List.append_eq_nil.mp hc).2
  refine ⟨htc, fun c => rfl, ?_, ?_⟩
  · intro zr
    simp [ValidationEngine.phase4Violations, mem_vif, htc]
  · cases hz : ValidationEngine.zoneRequirements s.zone with
    | none => simp [ValidationEngine.executeValidationWorkflow, hz]
    | some zr =>
      simp only [ValidationEngine.executeValidationWorkflow, hz]
      by_cases hcf : (ValidationEngine.executePhase1Validation zr s d).status =
          "critical_failure"
      · rw [if_pos hcf]
        dsimp only
        decide
      · rw [if_neg hcf]
        dsimp only
        simp only [ValidationEngine.executePhase5Validation]
        apply phase5Status_ne_approved
        intro hc
        simp only [ValidationEngine.collectAllViolations, List.map_cons, List.map_nil,
          List.flatten_cons, List.flatten_nil, List.append_eq_nil,
          ValidationEngine.executePhase4Validation] at hc
        exact h4 zr hc.1.2.2.2.1

/-- C10 witness: a design with the field absent is rejected or conditional,
never approved, and carries the Total Coverage violation. -/
theorem C10_coverage_with_features_witness :
    (ValidationEngine.validateTotalCoverageWithFeatures (mkSite "R-1" 7000)
      { goodDesign with totalCoverageWithFeatures := none }).result = .FAIL ∧
    (ValidationEngine.executeValidationWorkflow (mkSite "R-1" 7000)
      { goodDesign with totalCoverageWithFeatures := none }).overallStatus ≠
      "approved" := by
  have h := C10_coverage_with_features (mkSite "R-1" 7000)
    { goodDesign with totalCoverageWithFeatures := none } rfl
  exact ⟨h.1, h.2.2.2⟩
